import Mathlib

/-!
Shallow embedding of the WebSocket chat server (server/src/index.ts,
server/src/utils/validation.ts, and the escaping helper defined in the
repository's earlier standalone server file) together with theorems
checking the specification's claims about it.

Conventions:
  * JavaScript strings are modelled as Lean `String`; `undefined` string
    values are `Option String` with `none` for `undefined`.
  * `JSON.stringify` of the three outbound event objects is modelled by
    explicit encoders (`encodeChatMessage`, `encodeAnnouncement`,
    `encodeUserList`); it is deterministic, like the original.
  * Each broadcast site returns the list of `(client id, payload)` sends it
    performs plus the number of times `JSON.stringify` was invoked at that
    site (`encodeCalls`), which in the source is once per loop iteration
    because the call sits inside `wss.clients.forEach`.
  * Callback-style effects (close codes, process exits, shutdown stages)
    are reified as data.
-/

namespace WsChat

/-- index.ts line 32: per-connection message threshold per rate window. -/
def rateLimit : Nat := 20

/-- index.ts line 33: rate window length in milliseconds. -/
def rateLimitInterval : Nat := 10 * 1000

/-- index.ts line 134: `maxPayload` option of the WebSocketServer, in bytes.
Frames whose total size exceeds this bound are refused by the transport
before the `message` handler (and hence `JSON.parse`) ever runs. -/
def maxPayload : Nat := 1024

/-- index.ts lines 44-55: the fixed origin allow-list. -/
def allowedOrigins : List String :=
  ["http://127.0.0.1:5500",
   "http://localhost:8080",
   "http://localhost:5500",
   "ws://localhost:8080",
   "https://websocket-chat-client.onrender.com",
   "wss://websocket-chat-server.onrender.com",
   "https://websocket-chat-server-ptfw.onrender.com",
   "wss://websocket-chat-server-ptfw.onrender.com",
   "https://websocket-chat-client-ptfw.onrender.com",
   "wss://websocket-chat-client-ptfw.onrender.com"]

/-- utils/validation.ts: `message.length > 0 && message.length <= 250`. -/
def isValidMessage (message : String) : Bool :=
  decide (0 < message.length) && decide (message.length ≤ 250)

/-- Escaping helper (`sanitize`) as defined in the repository's server
source: sequential global replaces of the five markup-significant
characters; note the original's replacement for the apostrophe lacks the
trailing semicolon, which we reproduce. -/
def sanitize (str : String) : String :=
  ((((str.replace ("&") ("&amp;")).replace ("<") ("&lt;")).replace
    (">") ("&gt;")).replace ("\x22") ("&quot;")).replace ("\x27") ("&#39")

/-- JSON string-literal escaping used by `JSON.stringify` (backslash and
double quote; control characters do not occur in the modelled payloads). -/
def jsonEscape (s : String) : String :=
  (s.replace ("\\") ("\\\\")).replace ("\x22") ("\\\x22")

/-- JSON encoding of a string value. -/
def jsonStr (s : String) : String :=
  "\x22" ++ jsonEscape s ++ "\x22"

/-- JavaScript `a || b` on a possibly-undefined string (empty string is
falsy). -/
def jsOr (s : Option String) (dflt : String) : String :=
  match s with
  | some u => if u = "" then dflt else u
  | none => dflt

/-- readyState values of the `ws` library. -/
inductive ReadyState
  | CONNECTING
  | OPEN
  | CLOSING
  | CLOSED
  deriving DecidableEq

/-- One entry of `wss.clients`: the `ChatWebSocket` as the broadcast code
observes it. JavaScript object identity (`client !== ws`) is modelled by
the numeric `id`, unique per socket. -/
structure Client where
  id : Nat
  username : Option String
  readyState : ReadyState
  deriving DecidableEq

/-- index.ts lines 57-66 (`getConnectedUsers`): collect usernames of OPEN
clients whose `username` is truthy, dropping duplicates, in iteration
order. -/
def getConnectedUsers (clients : List Client) : List String :=
  clients.foldl
    (fun users client =>
      match client.username with
      | some u =>
        if client.readyState = ReadyState.OPEN ∧ u ≠ "" then
          if users.contains u then users else users ++ [u]
        else users
      | none => users)
    []

/-- The sends performed by one broadcast site, plus how many times
`JSON.stringify` ran at that site. -/
structure BroadcastResult where
  sends : List (Nat × String)
  encodeCalls : Nat
  deriving DecidableEq

/-- Wire form of the presence snapshot `{type:"userList",users:[...]}`. -/
def encodeUserList (users : List String) : String :=
  "\x7b\"type\":\"userList\",\"users\":[" ++
    String.intercalate (",") (users.map jsonStr) ++ "]\x7d"

/-- index.ts lines 69-80 (`broadcastUserlist`): send the snapshot to every
OPEN client; `JSON.stringify` sits inside the `forEach`, so it runs once
per recipient. -/
def broadcastUserlist (clients : List Client) : BroadcastResult :=
  let connectedUsers := getConnectedUsers clients
  let recipients := clients.filter (fun c => decide (c.readyState = ReadyState.OPEN))
  ⟨recipients.map (fun c => (c.id, encodeUserList connectedUsers)), recipients.length⟩

/-- index.ts line 278: the join-announcement text. -/
def announcementMessage (username : Option String) : String :=
  jsOr username ("unknown") ++ " has joined the chat room"

/-- Wire form of the announcement event. -/
def encodeAnnouncement (username : Option String) : String :=
  "\x7b\"type\":\"announcement\",\"message\":" ++
    jsonStr (announcementMessage username) ++ "\x7d"

/-- index.ts lines 281-285: on connection, the announcement is sent to every
OPEN client other than the new socket itself; `JSON.stringify` is inside
the loop. `clients` is `wss.clients` at that moment, which already contains
the new socket. -/
def connectionAnnouncement (clients : List Client) (ws : Client) : BroadcastResult :=
  let recipients :=
    clients.filter (fun c => decide (c.id ≠ ws.id ∧ c.readyState = ReadyState.OPEN))
  ⟨recipients.map (fun c => (c.id, encodeAnnouncement ws.username)), recipients.length⟩

/-- index.ts lines 266-288: the connection handler first broadcasts the
announcement (to everyone else), then calls `broadcastUserlist` (which
includes the new socket); the pair preserves that order. -/
def onConnection (clients : List Client) (ws : Client) : BroadcastResult × BroadcastResult :=
  (connectionAnnouncement clients ws, broadcastUserlist clients)

/-- Wire form of the chat broadcast object
`{username: ws.username, message, timestamp}`; when `username` is
`undefined`, `JSON.stringify` omits the key. -/
def encodeChatMessage (username : Option String) (message timestamp : String) : String :=
  "\x7b" ++
    (match username with
     | some u => "\"username\":" ++ jsonStr u ++ ","
     | none => "") ++
    "\"message\":" ++ jsonStr message ++ ",\"timestamp\":" ++
    jsonStr timestamp ++ "\x7d"

/-- Inbound frame as seen after (attempted) `JSON.parse`: a chat object, a
well-formed object of any other type, or bytes on which `JSON.parse`
throws. -/
inductive Frame
  | chat (message : String)
  | otherType
  | malformed
  deriving DecidableEq

/-- Result of one run of the `message` handler: the counter after the
increment, the `ws.close` call if any, whether `JSON.parse` was attempted,
and the broadcast performed. -/
structure MsgResult where
  counter : Nat
  closeCall : Option (Nat × String)
  parsed : Bool
  sends : List (Nat × String)
  encodeCalls : Nat
  deriving DecidableEq

/-- index.ts line 296: the rate-violation close reason. -/
def rateLimitReason : String := "You are sending messages too frequently"

/-- index.ts lines 291-321: the per-message handler. The counter is
incremented first; if it now exceeds `rateLimit` the socket is closed with
code 1008 and the handler returns before `JSON.parse`. Otherwise the frame
is parsed; a chat frame passing `isValidMessage` is sanitized and broadcast
to every OPEN client (`JSON.stringify` inside the loop); anything else is
dropped. `timestamp` abstracts `new Date().toLocaleTimeString()`. -/
def wsMessageHandler (clients : List Client) (ws : Client) (messageCounter : Nat)
    (frame : Frame) (timestamp : String) : MsgResult :=
  let messageCounter := messageCounter + 1
  if messageCounter > rateLimit then
    ⟨messageCounter, some (1008, rateLimitReason), false, [], 0⟩
  else
    match frame with
    | Frame.malformed => ⟨messageCounter, none, true, [], 0⟩
    | Frame.otherType => ⟨messageCounter, none, true, [], 0⟩
    | Frame.chat message =>
      if isValidMessage message then
        let recipients :=
          clients.filter (fun c => decide (c.readyState = ReadyState.OPEN))
        ⟨messageCounter, none, true,
          recipients.map
            (fun c => (c.id, encodeChatMessage ws.username (sanitize message) timestamp)),
          recipients.length⟩
      else ⟨messageCounter, none, true, [], 0⟩

/-- Outcome of an inbound frame at the transport layer: oversized frames are
refused before the `message` handler runs. -/
inductive RecvResult
  | transportReject
  | handled (r : MsgResult)
  deriving DecidableEq

/-- Transport gate (`maxPayload`, index.ts line 134) composed with the
`message` handler. -/
def receiveFrame (clients : List Client) (ws : Client) (messageCounter : Nat)
    (frame : Frame) (frameBytes : Nat) (timestamp : String) : RecvResult :=
  if frameBytes > maxPayload then RecvResult.transportReject
  else RecvResult.handled (wsMessageHandler clients ws messageCounter frame timestamp)

/-- Per-connection rate-limiter state: the counter (index.ts line 271) and
the close call issued by the handler, if any. -/
structure ConnState where
  messageCounter : Nat
  closeCall : Option (Nat × String)
  deriving DecidableEq

/-- Events reaching one connection: an inbound message frame, or one firing
of the recurring `rateLimitTimer` (index.ts lines 272-274), which resets
the counter to zero. -/
inductive ConnEvent
  | msg (frame : Frame) (timestamp : String)
  | windowTick
  deriving DecidableEq

/-- One step of the per-connection state machine. After the handler has
closed the socket no further events are processed for it. -/
def stepConn (clients : List Client) (ws : Client) (st : ConnState) (e : ConnEvent) : ConnState :=
  match st.closeCall with
  | some _ => st
  | none =>
    match e with
    | ConnEvent.windowTick => ⟨0, none⟩
    | ConnEvent.msg frame timestamp =>
      let r := wsMessageHandler clients ws st.messageCounter frame timestamp
      ⟨r.counter, r.closeCall⟩

/-- Run a connection from its initial state (`messageCounter = 0`, open)
through a list of events. -/
def runConn (clients : List Client) (ws : Client) (events : List ConnEvent) : ConnState :=
  events.foldl (stepConn clients ws) ⟨0, none⟩

/-- Outcomes of the fallible steps inside `gracefulShutdown`: whether
`server.close` reports an error, whether `Sentry.close(2000)` rejects, and
whether `pool.end` reports an error (its callback takes no error argument
in the source, so this last flag is never consulted). -/
structure ShutdownEnv where
  serverCloseErr : Bool
  sentryFlushErr : Bool
  poolEndErr : Bool
  deriving DecidableEq

/-- Observable stages of the shutdown sequence, including the final
`process.exit` with its code. -/
inductive Stage
  | serverClose
  | wssClose
  | sentryClose
  | poolEnd
  | exitCall (code : Nat)
  deriving DecidableEq

/-- index.ts lines 336-370 (`gracefulShutdown`) as the ordered trace of
stages it performs: `server.close` whose callback, on error, exits 1
immediately; otherwise `wss.close()`, then `Sentry.close(2000)`; on flush
success `pool.end` then exit 0; on flush rejection the error is logged,
`pool.end` still runs, and the process exits 1. The `pool.end` callback
ignores any error. -/
def gracefulShutdown (env : ShutdownEnv) : List Stage :=
  if env.serverCloseErr then
    [Stage.serverClose, Stage.exitCall 1]
  else if env.sentryFlushErr then
    [Stage.serverClose, Stage.wssClose, Stage.sentryClose, Stage.poolEnd, Stage.exitCall 1]
  else
    [Stage.serverClose, Stage.wssClose, Stage.sentryClose, Stage.poolEnd, Stage.exitCall 0]

/-- The exit code reported by the first `process.exit` in a trace. -/
def exitCode (trace : List Stage) : Option Nat :=
  trace.findSome? (fun s =>
    match s with
    | Stage.exitCall c => some c
    | _ => none)

/-- The two termination signals (index.ts lines 372-373). -/
inductive Signal
  | SIGINT
  | SIGTERM
  deriving DecidableEq

/-- Both signals are registered to the same handler, `gracefulShutdown`,
which contains no in-progress guard: each delivery invokes the sequence. -/
def signalHandler (s : Signal) (env : ShutdownEnv) : List Stage :=
  match s with
  | Signal.SIGINT => gracefulShutdown env
  | Signal.SIGTERM => gracefulShutdown env

/-- Stage trace produced by a list of delivered termination signals. -/
def runSignals (env : ShutdownEnv) (signals : List Signal) : List Stage :=
  signals.foldl (fun trace s => trace ++ signalHandler s env) []

/-- Lifecycle events of one identity churning against the server, with
millisecond timestamps. -/
inductive ChurnEvent
  | disconnect (t : Nat)
  | reconnect (t : Nat)
  deriving DecidableEq

/-- index.ts line 332: the fixed delay before the close handler's presence
rebroadcast. -/
def presenceDelay : Nat := 100

/-- Firing times of the `broadcastUserlist` calls caused by each lifecycle
event: the close handler schedules one via `setTimeout(.., 100)` (index.ts
lines 330-332) and nothing ever cancels it; the connection handler calls
`broadcastUserlist()` immediately (index.ts line 288). -/
def presenceBroadcastTimes (events : List ChurnEvent) : List Nat :=
  events.map (fun e =>
    match e with
    | ChurnEvent.disconnect t => t + presenceDelay
    | ChurnEvent.reconnect t => t)

/-- Whether the identity is in the registry at time `t`, given its churn
events in chronological order and that it starts connected; a disconnect
at `t0` removes it from `t0` on, a reconnect at `t1` restores it from `t1`
on (the connection handler registers the socket before broadcasting). -/
def presentAt (events : List ChurnEvent) (t : Nat) : Bool :=
  events.foldl
    (fun present e =>
      match e with
      | ChurnEvent.disconnect t0 => if t0 ≤ t then false else present
      | ChurnEvent.reconnect t1 => if t1 ≤ t then true else present)
    true

/-- The upgrade request as `verifyClient` reads it: whether `info.req.url`
is set, and the result of `searchParams.get("token")` on it. -/
structure UpgradeReq where
  hasUrl : Bool
  tokenParam : Option String
  deriving DecidableEq

/-- The `info` argument of `verifyClient`: the declared origin (`none` when
the header is absent, in which case the JavaScript `includes` check also
fails) and the request. -/
structure UpgradeInfo where
  origin : Option String
  req : UpgradeReq
  deriving DecidableEq

/-- Outcome of the handshake gate: `done(false)`, or `done(true)` with the
username attached to the request (index.ts line 123), which the connection
handler then binds to the socket (index.ts line 269). -/
inductive VerifyResult
  | reject
  | accept (username : String)
  deriving DecidableEq

/-- index.ts line 118: `SELECT * from active_tokens WHERE token = $1` over
the live-session store, modelled as the rows whose token column matches. -/
def activeTokensLookup (store : List (String × String)) (token : String) :
    List (String × String) :=
  store.filter (fun row => decide (row.1 = token))

/-- index.ts lines 84-132 (`verifyClient`): reject unless the origin is in
the allow-list, the request has a URL carrying a `token` parameter, the
JWT secret is configured, the cryptographic verification succeeds
(`jwtVerifyOk`, abstracting `jwt.verify`), and the token has a row in
`active_tokens`; on success the bound identity is the username of the
first matching row. -/
def verifyClient (secret : Option String) (jwtVerifyOk : String → String → Bool)
    (store : List (String × String)) (info : UpgradeInfo) : VerifyResult :=
  let originAllowed :=
    match info.origin with
    | some o => allowedOrigins.contains o
    | none => false
  if !originAllowed then
    VerifyResult.reject
  else if !info.req.hasUrl then
    VerifyResult.reject
  else
    match info.req.tokenParam with
    | none => VerifyResult.reject
    | some token =>
      match secret with
      | none => VerifyResult.reject
      | some s =>
        if !jwtVerifyOk token s then
          VerifyResult.reject
        else
          match activeTokensLookup store token with
          | [] => VerifyResult.reject
          | row :: _ => VerifyResult.accept row.2

/-- index.ts line 234 (`POST /logout`): `DELETE FROM active_tokens WHERE
token = $1` removes every row bound to the credential. -/
def logoutDelete (store : List (String × String)) (token : String) :
    List (String × String) :=
  store.filter (fun row => decide (¬ row.1 = token))

/-- Concrete socket used by the closed-form evaluation theorems. -/
def clientA : Client := ⟨1, some ("alice"), ReadyState.OPEN⟩

/-- Second concrete socket. -/
def clientB : Client := ⟨2, some ("bob"), ReadyState.OPEN⟩

/-- Twenty inbound frames, one full window's allowance. -/
def framesW : List (Frame × String) := List.replicate 20 (Frame.otherType, "t")

/-- Chat text of exactly 250 characters. -/
def msg250 : String := String.mk (List.replicate 250 ('a'))

/-- Upgrade request from an origin outside the allow-list, carrying an
otherwise perfectly valid credential. -/
def evilInfo : UpgradeInfo := ⟨some ("https://evil.example"), ⟨true, some ("tok")⟩⟩

/-- Upgrade request from an allow-listed origin carrying the credential. -/
def goodInfo : UpgradeInfo := ⟨some ("http://localhost:8080"), ⟨true, some ("tok")⟩⟩

/-- Disconnect at t = 0 ms followed by a reconnect of the same identity at
t = 50 ms, inside the 100 ms presence delay. -/
def churnScenario : List ChurnEvent := [ChurnEvent.disconnect 0, ChurnEvent.reconnect 50]

/-- Every run of the message handler increments the counter by exactly one,
whatever the frame holds. -/
theorem wsMessageHandler_counter (clients : List Client) (ws : Client) (c : Nat)
    (f : Frame) (ts : String) :
    (wsMessageHandler clients ws c f ts).counter = c + 1 := by
  unfold wsMessageHandler
  cases f <;> dsimp only <;> split <;> first | rfl | (split <;> rfl)

/-- While the incremented counter stays within the threshold the handler
never closes the socket. -/
theorem wsMessageHandler_below (clients : List Client) (ws : Client) (c : Nat)
    (f : Frame) (ts : String) (h : c + 1 ≤ rateLimit) :
    (wsMessageHandler clients ws c f ts).closeCall = none := by
  unfold wsMessageHandler
  cases f <;> (dsimp only; rw [if_neg (by omega)]; try first | rfl | (split <;> rfl))

/-- When the increment pushes the counter past the threshold the handler
closes with code 1008 and the rate reason, attempts no parse, and sends
nothing. -/
theorem wsMessageHandler_above (clients : List Client) (ws : Client) (c : Nat)
    (f : Frame) (ts : String) (h : rateLimit < c + 1) :
    wsMessageHandler clients ws c f ts =
      ⟨c + 1, some (1008, rateLimitReason), false, [], 0⟩ := by
  unfold wsMessageHandler
  cases f <;> (dsimp only; rw [if_pos (by omega)])

/-- Folding message events while the budget lasts just counts them. -/
theorem foldl_msgs_below (clients : List Client) (ws : Client)
    (frames : List (Frame × String)) (c : Nat) (h : c + frames.length ≤ rateLimit) :
    (frames.map (fun p => ConnEvent.msg p.1 p.2)).foldl (stepConn clients ws) ⟨c, none⟩ =
      ⟨c + frames.length, none⟩ := by
  induction frames generalizing c with
  | nil => simp
  | cons p rest ih =>
    simp only [List.length_cons] at h
    simp only [List.map_cons, List.foldl_cons, List.length_cons]
    have hstep : stepConn clients ws ⟨c, none⟩ (ConnEvent.msg p.1 p.2) = ⟨c + 1, none⟩ := by
      simp only [stepConn]
      rw [wsMessageHandler_counter,
        wsMessageHandler_below clients ws c p.1 p.2 (by omega)]
    rw [hstep]
    have := ih (c + 1) (by omega)
    rw [this]
    congr 1
    omega

/-- C1: within one fixed window a connection may send 20 messages and stays
open with its counter at 20; the frame that makes the counter reach 21 is
answered by `ws.close(1008, reason)` with no parse and no broadcast, and the
run ends closed; and because the recurring timer resets the counter to
zero, the first message of a new window is processed normally even
immediately after a prior window's 20th message. -/
theorem rate_limit_fixed_window (clients : List Client) (ws : Client)
    (frames : List (Frame × String)) (f : Frame) (ts : String)
    (h20 : frames.length = 20) :
    runConn clients ws (frames.map (fun p => ConnEvent.msg p.1 p.2)) = ⟨20, none⟩
    ∧ wsMessageHandler clients ws 20 f ts =
        ⟨21, some (1008, rateLimitReason), false, [], 0⟩
    ∧ runConn clients ws
        (frames.map (fun p => ConnEvent.msg p.1 p.2) ++ [ConnEvent.msg f ts]) =
        ⟨21, some (1008, rateLimitReason)⟩
    ∧ runConn clients ws
        (frames.map (fun p => ConnEvent.msg p.1 p.2) ++
          [ConnEvent.windowTick, ConnEvent.msg f ts]) = ⟨1, none⟩ := by
  have hbase :
      (frames.map (fun p => ConnEvent.msg p.1 p.2)).foldl (stepConn clients ws) ⟨0, none⟩ =
        ⟨20, none⟩ := by
    have := foldl_msgs_below clients ws frames 0 (by rw [h20]; decide)
    rw [h20] at this
    exact this
  have hclosed := wsMessageHandler_above clients ws 20 f ts (by decide)
  refine ⟨hbase, hclosed, ?_, ?_⟩
  · show (frames.map (fun p => ConnEvent.msg p.1 p.2) ++ [ConnEvent.msg f ts]).foldl
      (stepConn clients ws) ⟨0, none⟩ = ⟨21, some (1008, rateLimitReason)⟩
    rw [List.foldl_append, hbase]
    simp only [List.foldl_cons, List.foldl_nil]
    simp only [stepConn, hclosed]
  · show (frames.map (fun p => ConnEvent.msg p.1 p.2) ++
        [ConnEvent.windowTick, ConnEvent.msg f ts]).foldl (stepConn clients ws) ⟨0, none⟩ =
      ⟨1, none⟩
    rw [List.foldl_append, hbase]
    simp only [List.foldl_cons, List.foldl_nil]
    have htick : stepConn clients ws ⟨20, none⟩ ConnEvent.windowTick = ⟨0, none⟩ := rfl
    rw [htick]
    have hmsg : stepConn clients ws ⟨0, none⟩ (ConnEvent.msg f ts) = ⟨1, none⟩ := by
      simp only [stepConn]
      rw [wsMessageHandler_counter, wsMessageHandler_below clients ws 0 f ts (by decide)]
    exact hmsg

/-- C1 witness: the rate-window property instantiated with 20 concrete
frames followed by one more. -/
theorem rate_limit_fixed_window_witness :
    framesW.length = 20 ∧
    (runConn [clientA] clientA (framesW.map (fun p => ConnEvent.msg p.1 p.2)) = ⟨20, none⟩
      ∧ wsMessageHandler [clientA] clientA 20 Frame.otherType ("t") =
          ⟨21, some (1008, rateLimitReason), false, [], 0⟩
      ∧ runConn [clientA] clientA
          (framesW.map (fun p => ConnEvent.msg p.1 p.2) ++ [ConnEvent.msg Frame.otherType ("t")]) =
          ⟨21, some (1008, rateLimitReason)⟩
      ∧ runConn [clientA] clientA
          (framesW.map (fun p => ConnEvent.msg p.1 p.2) ++
            [ConnEvent.windowTick, ConnEvent.msg Frame.otherType ("t")]) = ⟨1, none⟩) :=
  ⟨by decide,
   rate_limit_fixed_window [clientA] clientA framesW Frame.otherType ("t") (by decide)⟩

/-- C7: under the rate allowance, a chat frame whose text has exactly 250
characters is accepted and broadcast to every OPEN client; text of 251
characters or of length zero is dropped (no sends) without any `ws.close`;
and a frame whose total size exceeds 1024 bytes is refused by the transport
layer, so the `message` handler — and with it `JSON.parse` — never runs. -/
theorem message_bounds (clients : List Client) (ws : Client) (counter : Nat)
    (m : String) (ts : String) (hc : counter < rateLimit) :
    (m.length = 250 →
      wsMessageHandler clients ws counter (Frame.chat m) ts =
        ⟨counter + 1, none, true,
          (clients.filter (fun c => decide (c.readyState = ReadyState.OPEN))).map
            (fun c => (c.id, encodeChatMessage ws.username (sanitize m) ts)),
          (clients.filter (fun c => decide (c.readyState = ReadyState.OPEN))).length⟩)
    ∧ (m.length = 251 ∨ m.length = 0 →
      wsMessageHandler clients ws counter (Frame.chat m) ts =
        ⟨counter + 1, none, true, [], 0⟩)
    ∧ (∀ (f : Frame) (frameBytes : Nat), frameBytes > maxPayload →
      receiveFrame clients ws counter f frameBytes ts = RecvResult.transportReject) := by
  have hlt : ¬ (counter + 1 > rateLimit) := by omega
  refine ⟨?_, ?_, ?_⟩
  · intro h250
    have hv : isValidMessage m = true := by
      simp [isValidMessage, h250]
    unfold wsMessageHandler
    dsimp only
    rw [if_neg hlt, if_pos hv]
  · intro hbad
    have hv : isValidMessage m = false := by
      rcases hbad with h | h <;> simp [isValidMessage, h]
    unfold wsMessageHandler
    dsimp only
    rw [if_neg hlt, if_neg (by simp [hv])]
  · intro f frameBytes hsize
    unfold receiveFrame
    rw [if_pos hsize]

set_option maxRecDepth 4000 in
/-- C7 witness: the bounds at a concrete 250-character message and a
1025-byte frame. -/
theorem message_bounds_witness :
    msg250.length = 250 ∧
    wsMessageHandler [clientA] clientA 0 (Frame.chat msg250) ("t") =
      ⟨0 + 1, none, true,
        ([clientA].filter (fun c => decide (c.readyState = ReadyState.OPEN))).map
          (fun c => (c.id, encodeChatMessage clientA.username (sanitize msg250) ("t"))),
        ([clientA].filter (fun c => decide (c.readyState = ReadyState.OPEN))).length⟩ ∧
    receiveFrame [clientA] clientA 0 (Frame.chat ("hi")) 1025 ("t") =
      RecvResult.transportReject :=
  ⟨by decide,
   (message_bounds [clientA] clientA 0 msg250 ("t") (by decide)).1 (by decide),
   (message_bounds [clientA] clientA 0 msg250 ("t") (by decide)).2.2
     (Frame.chat ("hi")) 1025 (by decide)⟩

/-- In a registry with pairwise-distinct socket ids, filtering for an OPEN
member's id keeps exactly that member. -/
theorem filter_open_id (clients : List Client) (ws : Client)
    (hmem : ws ∈ clients) (hopen : ws.readyState = ReadyState.OPEN)
    (hids : (clients.map Client.id).Nodup) :
    clients.filter
      (fun c => decide (c.id = ws.id) && decide (c.readyState = ReadyState.OPEN)) =
      [ws] := by
  induction clients with
  | nil => cases hmem
  | cons a rest ih =>
    simp only [List.map_cons, List.nodup_cons] at hids
    obtain ⟨hnot, hnodup⟩ := hids
    rcases List.mem_cons.mp hmem with heq | hmem'
    · subst heq
      have hrest : rest.filter
          (fun c => decide (c.id = ws.id) && decide (c.readyState = ReadyState.OPEN)) =
          [] := by
        rw [List.filter_eq_nil_iff]
        intro c hc hpc
        simp only [Bool.and_eq_true, decide_eq_true_eq] at hpc
        exact hnot (by rw [← hpc.1]; exact List.mem_map_of_mem Client.id hc)
      simp [List.filter_cons, hopen, hrest]
    · have haid : ¬ (a.id = ws.id) := by
        intro h
        exact hnot (by rw [h]; exact List.mem_map_of_mem Client.id hmem')
      simp only [List.filter_cons, haid, decide_eq_true_eq, decide_False,
        Bool.false_and, if_false]
      exact ih hmem' hnodup

/-- C10: a valid chat frame from socket A is echoed back to A itself: the
fan-out loop has no sender exclusion, so with distinct socket ids exactly
one send targets A, and it carries A's own escaped message. -/
theorem sender_receives_own_broadcast (clients : List Client) (ws : Client)
    (counter : Nat) (m : String) (ts : String)
    (hc : counter < rateLimit) (hv : isValidMessage m = true)
    (hmem : ws ∈ clients) (hopen : ws.readyState = ReadyState.OPEN)
    (hids : (clients.map Client.id).Nodup) :
    (wsMessageHandler clients ws counter (Frame.chat m) ts).sends.filter
        (fun p => decide (p.1 = ws.id)) =
      [(ws.id, encodeChatMessage ws.username (sanitize m) ts)] := by
  unfold wsMessageHandler
  dsimp only
  rw [if_neg (by omega), if_pos hv]
  dsimp only
  rw [List.filter_map]
  have hcomp : ((fun p : Nat × String => decide (p.1 = ws.id)) ∘
      (fun c : Client => (c.id, encodeChatMessage ws.username (sanitize m) ts))) =
      (fun c : Client => decide (c.id = ws.id)) := rfl
  rw [hcomp, List.filter_filter, filter_open_id clients ws hmem hopen hids]
  rfl

/-- C10 witness: with both concrete sockets open, the sender receives its own
escaped message exactly once. -/
theorem sender_receives_own_broadcast_witness :
    (wsMessageHandler [clientA, clientB] clientA 0 (Frame.chat ("hi")) ("t")).sends.filter
        (fun p => decide (p.1 = clientA.id)) =
      [(clientA.id, encodeChatMessage clientA.username (sanitize ("hi")) ("t"))] :=
  sender_receives_own_broadcast [clientA, clientB] clientA 0 ("hi") ("t")
    (by decide) (by decide) (by decide) (by decide) (by decide)

/-- C2 counterexample: with two OPEN recipients a single chat broadcast runs
`JSON.stringify` twice (once per recipient), not exactly once, and the
presence broadcast does the same: the claim's serialized-exactly-once
invariant fails on the code. -/
theorem broadcast_serialize_once_cex :
    (wsMessageHandler [clientA, clientB] clientA 0 (Frame.chat ("hi")) ("t")).encodeCalls = 2
    ∧ ¬ ((wsMessageHandler [clientA, clientB] clientA 0
          (Frame.chat ("hi")) ("t")).encodeCalls = 1)
    ∧ (broadcastUserlist [clientA, clientB]).encodeCalls = 2
    ∧ ¬ ((broadcastUserlist [clientA, clientB]).encodeCalls = 1) := by
  decide

/-- C2 amended: each broadcast site (chat, presence snapshot, announcement)
serializes the event once per eligible OPEN recipient rather than once per
broadcast, but every serialization is of the same unchanged object, so the
payload delivered to every recipient is byte-identical. -/
theorem broadcast_per_recipient_serialization (clients : List Client) (ws : Client)
    (counter : Nat) (m : String) (ts : String)
    (hc : counter < rateLimit) (hv : isValidMessage m = true) :
    ((wsMessageHandler clients ws counter (Frame.chat m) ts).encodeCalls =
        (wsMessageHandler clients ws counter (Frame.chat m) ts).sends.length
      ∧ ∀ p ∈ (wsMessageHandler clients ws counter (Frame.chat m) ts).sends,
          p.2 = encodeChatMessage ws.username (sanitize m) ts)
    ∧ ((broadcastUserlist clients).encodeCalls = (broadcastUserlist clients).sends.length
      ∧ ∀ p ∈ (broadcastUserlist clients).sends,
          p.2 = encodeUserList (getConnectedUsers clients))
    ∧ ((connectionAnnouncement clients ws).encodeCalls =
        (connectionAnnouncement clients ws).sends.length
      ∧ ∀ p ∈ (connectionAnnouncement clients ws).sends,
          p.2 = encodeAnnouncement ws.username) := by
  have hchat : wsMessageHandler clients ws counter (Frame.chat m) ts =
      ⟨counter + 1, none, true,
        (clients.filter (fun c => decide (c.readyState = ReadyState.OPEN))).map
          (fun c => (c.id, encodeChatMessage ws.username (sanitize m) ts)),
        (clients.filter (fun c => decide (c.readyState = ReadyState.OPEN))).length⟩ := by
    unfold wsMessageHandler
    dsimp only
    rw [if_neg (by omega), if_pos hv]
  refine ⟨⟨?_, ?_⟩, ⟨?_, ?_⟩, ⟨?_, ?_⟩⟩
  · rw [hchat]
    simp [List.length_map]
  · intro p hp
    rw [hchat] at hp
    simp only [List.mem_map] at hp
    obtain ⟨c, _, rfl⟩ := hp
    rfl
  · simp [broadcastUserlist, List.length_map]
  · intro p hp
    simp only [broadcastUserlist, List.mem_map] at hp
    obtain ⟨c, _, rfl⟩ := hp
    rfl
  · simp [connectionAnnouncement, List.length_map]
  · intro p hp
    simp only [connectionAnnouncement, List.mem_map] at hp
    obtain ⟨c, _, rfl⟩ := hp
    rfl

/-- C2 amended witness: at the concrete two-socket registry the chat
broadcast's stringify count equals its recipient count. -/
theorem broadcast_per_recipient_serialization_witness :
    (wsMessageHandler [clientA, clientB] clientA 0 (Frame.chat ("hi")) ("t")).encodeCalls =
      (wsMessageHandler [clientA, clientB] clientA 0 (Frame.chat ("hi")) ("t")).sends.length :=
  (broadcast_per_recipient_serialization [clientA, clientB] clientA 0 ("hi") ("t")
    (by decide) (by decide)).1.1

/-- C8: when socket `ws` is admitted (present and OPEN in the registry as the
connection handler runs), the join announcement goes to every other OPEN
socket but never to `ws` itself, and the presence snapshot broadcast that
follows goes to every OPEN socket, `ws` included. -/
theorem join_announcement_and_presence (clients : List Client) (ws : Client)
    (hmem : ws ∈ clients) (hopen : ws.readyState = ReadyState.OPEN) :
    (∀ p ∈ (onConnection clients ws).1.sends, p.1 ≠ ws.id)
    ∧ (∀ c ∈ clients, c.id ≠ ws.id → c.readyState = ReadyState.OPEN →
        (c.id, encodeAnnouncement ws.username) ∈ (onConnection clients ws).1.sends)
    ∧ (ws.id, encodeUserList (getConnectedUsers clients)) ∈ (onConnection clients ws).2.sends
    ∧ (∀ c ∈ clients, c.readyState = ReadyState.OPEN →
        (c.id, encodeUserList (getConnectedUsers clients)) ∈ (onConnection clients ws).2.sends) := by
  refine ⟨?_, ?_, ?_, ?_⟩
  · intro p hp
    simp only [onConnection, connectionAnnouncement, List.mem_map, List.mem_filter,
      decide_eq_true_eq] at hp
    obtain ⟨c, ⟨_, hcond⟩, rfl⟩ := hp
    exact hcond.1
  · intro c hcmem hne hcopen
    simp only [onConnection, connectionAnnouncement, List.mem_map, List.mem_filter,
      decide_eq_true_eq]
    exact ⟨c, ⟨hcmem, hne, hcopen⟩, rfl⟩
  · simp only [onConnection, broadcastUserlist, List.mem_map, List.mem_filter,
      decide_eq_true_eq]
    exact ⟨ws, ⟨hmem, hopen⟩, rfl⟩
  · intro c hcmem hcopen
    simp only [onConnection, broadcastUserlist, List.mem_map, List.mem_filter,
      decide_eq_true_eq]
    exact ⟨c, ⟨hcmem, hcopen⟩, rfl⟩

/-- C8 witness: with alice already present and bob joining, bob's
announcement reaches alice and the following snapshot reaches bob too. -/
theorem join_announcement_and_presence_witness :
    (clientA.id, encodeAnnouncement clientB.username) ∈
      (onConnection [clientA, clientB] clientB).1.sends
    ∧ (clientB.id, encodeUserList (getConnectedUsers [clientA, clientB])) ∈
      (onConnection [clientA, clientB] clientB).2.sends :=
  ⟨(join_announcement_and_presence [clientA, clientB] clientB (by decide) (by decide)).2.1
      clientA (by decide) (by decide) (by decide),
   (join_announcement_and_presence [clientA, clientB] clientB (by decide) (by decide)).2.2.1⟩

/-- C5: an upgrade whose declared origin is absent or outside the allow-list
is rejected no matter what the URL, the credential, the secret, or the
session store hold: the origin policy fails closed. -/
theorem origin_fail_closed (secret : Option String) (jwtVerifyOk : String → String → Bool)
    (store : List (String × String)) (info : UpgradeInfo)
    (h : ∀ o, info.origin = some o → allowedOrigins.contains o = false) :
    verifyClient secret jwtVerifyOk store info = VerifyResult.reject := by
  unfold verifyClient
  cases horig : info.origin with
  | none => rfl
  | some o =>
    dsimp only
    rw [h o horig]
    rfl

/-- C5 witness: a syntactically valid credential, accepted store row and
configured secret do not save an unlisted origin. -/
theorem origin_fail_closed_witness :
    verifyClient (some ("sec")) (fun _ _ => true) [("tok", "alice")] evilInfo =
      VerifyResult.reject :=
  origin_fail_closed (some ("sec")) (fun _ _ => true) [("tok", "alice")] evilInfo
    (by
      intro o ho
      have hev : evilInfo.origin = some ("https://evil.example") := rfl
      rw [hev] at ho
      rw [(Option.some.inj ho).symm]
      decide)

/-- Rows of the live-session store matching a credential that logout just
deleted: there are none. -/
theorem lookup_after_logout (store : List (String × String)) (token : String) :
    activeTokensLookup (logoutDelete store token) token = [] := by
  unfold activeTokensLookup logoutDelete
  rw [List.filter_filter, List.filter_eq_nil_iff]
  intro row _ hpc
  simp at hpc

/-- C6: the handshake accepts only when the cryptographic check and the
live-store membership check both pass, and then binds exactly the username
of the first matching `active_tokens` row; once logout has deleted the row,
the same credential is rejected even under a still-succeeding cryptographic
check. -/
theorem token_validator_both_checks (secret : Option String)
    (jwtVerifyOk : String → String → Bool) (store : List (String × String))
    (info : UpgradeInfo) :
    (∀ u, verifyClient secret jwtVerifyOk store info = VerifyResult.accept u →
      ∃ token s row, info.req.tokenParam = some token ∧ secret = some s ∧
        jwtVerifyOk token s = true ∧
        (activeTokensLookup store token).head? = some row ∧
        row ∈ store ∧ row.1 = token ∧ row.2 = u)
    ∧ (∀ token, info.req.tokenParam = some token →
        verifyClient secret jwtVerifyOk (logoutDelete store token) info =
          VerifyResult.reject) := by
  constructor
  · intro u hacc
    unfold verifyClient at hacc
    cases horig : info.origin with
    | none =>
      rw [horig] at hacc
      simp at hacc
    | some o =>
      rw [horig] at hacc
      cases hco : allowedOrigins.contains o with
      | false =>
        have homem : o ∉ allowedOrigins := by simpa using hco
        simp [homem] at hacc
      | true =>
        simp only [hco, Bool.not_true] at hacc
        rw [if_neg (by decide)] at hacc
        cases hurl : info.req.hasUrl with
        | false => simp [hurl] at hacc
        | true =>
          simp only [hurl, Bool.not_true] at hacc
          rw [if_neg (by decide)] at hacc
          cases htok : info.req.tokenParam with
          | none => simp [htok] at hacc
          | some token =>
            simp only [htok] at hacc
            cases hsec : secret with
            | none =>
              rw [hsec] at hacc
              simp at hacc
            | some s =>
              rw [hsec] at hacc
              dsimp only at hacc
              cases hjb : jwtVerifyOk token s with
              | false => simp [hjb] at hacc
              | true =>
                simp only [hjb, Bool.not_true] at hacc
                rw [if_neg (by decide)] at hacc
                cases hlk : activeTokensLookup store token with
                | nil => simp [hlk] at hacc
                | cons row tail =>
                  simp only [hlk, VerifyResult.accept.injEq] at hacc
                  have hrowmem : row ∈ activeTokensLookup store token := by
                    rw [hlk]
                    exact List.mem_cons_self row tail
                  have hrow := List.mem_filter.mp hrowmem
                  refine ⟨token, s, row, rfl, rfl, hjb, ?_, hrow.1, ?_, hacc⟩
                  · rw [hlk]
                    rfl
                  · simpa using hrow.2
  · intro token htok
    unfold verifyClient
    dsimp only
    split
    · rfl
    · split
      · rfl
      · rw [htok]
        dsimp only
        split
        · rfl
        · split
          · rfl
          · rw [lookup_after_logout]

/-- C6 witness: before logout the concrete credential is accepted and bound
to the row's username; after logout deletes the row it is rejected though
the cryptographic check still succeeds. -/
theorem token_validator_both_checks_witness :
    verifyClient (some ("sec")) (fun _ _ => true) [("tok", "alice")] goodInfo =
      VerifyResult.accept ("alice")
    ∧ verifyClient (some ("sec")) (fun _ _ => true)
        (logoutDelete [("tok", "alice")] ("tok")) goodInfo = VerifyResult.reject :=
  ⟨by decide,
   (token_validator_both_checks (some ("sec")) (fun _ _ => true)
      [("tok", "alice")] goodInfo).2 ("tok") rfl⟩

/-- C3 counterexample: when the accept-layer close succeeds and the pool
release raises no error but the telemetry flush fails, the process exits 1,
although the claim allows exit 1 only when a critical-path stage
(accept-layer close, pool release) failed and promises exit 0 exactly when
those succeeded. -/
theorem shutdown_exit_code_cex :
    (ShutdownEnv.mk false true false).serverCloseErr = false
    ∧ (ShutdownEnv.mk false true false).poolEndErr = false
    ∧ exitCode (gracefulShutdown ⟨false, true, false⟩) = some 1
    ∧ ¬ (exitCode (gracefulShutdown ⟨false, true, false⟩) = some 0) := by
  decide

/-- C3 amended: a telemetry-flush failure is logged and does not abort the
remaining stages — the pool is still released whenever the accept-layer
close succeeded — but the exit code is 0 exactly when the accept-layer
close and the telemetry flush both succeed; the pool-release outcome never
influences the exit code. -/
theorem shutdown_exit_code (env : ShutdownEnv) :
    (env.serverCloseErr = false → Stage.poolEnd ∈ gracefulShutdown env)
    ∧ (exitCode (gracefulShutdown env) = some 0 ↔
        env.serverCloseErr = false ∧ env.sentryFlushErr = false)
    ∧ exitCode (gracefulShutdown env) =
        exitCode (gracefulShutdown ⟨env.serverCloseErr, env.sentryFlushErr, !env.poolEndErr⟩) := by
  obtain ⟨a, b, c⟩ := env
  cases a <;> cases b <;> cases c <;> decide

/-- C3 amended witness: with a failing flush the pool-release stage still
runs. -/
theorem shutdown_exit_code_witness :
    Stage.poolEnd ∈ gracefulShutdown ⟨false, true, false⟩ :=
  (shutdown_exit_code ⟨false, true, false⟩).1 rfl

/-- Every single invocation of the shutdown sequence initiates exactly one
`server.close`. -/
theorem gracefulShutdown_count_serverClose (env : ShutdownEnv) :
    (gracefulShutdown env).count Stage.serverClose = 1 := by
  obtain ⟨a, b, c⟩ := env
  cases a <;> cases b <;> cases c <;> decide

/-- Folding signal deliveries accumulates one `server.close` initiation per
signal. -/
theorem runSignals_go (env : ShutdownEnv) (signals : List Signal) (init : List Stage) :
    (signals.foldl (fun trace s => trace ++ signalHandler s env) init).count
        Stage.serverClose =
      init.count Stage.serverClose + signals.length := by
  induction signals generalizing init with
  | nil => simp
  | cons s rest ih =>
    simp only [List.foldl_cons, List.length_cons]
    rw [ih]
    rw [List.count_append]
    have hone : (signalHandler s env).count Stage.serverClose = 1 := by
      cases s <;> exact gracefulShutdown_count_serverClose env
    rw [hone]
    omega

/-- C4 counterexample: delivering both termination signals while the first
shutdown is in progress initiates `server.close` twice — the stages are not
executed exactly once, so the trigger is not a no-op the second time. -/
theorem shutdown_idempotence_cex :
    (runSignals ⟨false, false, false⟩ [Signal.SIGINT, Signal.SIGTERM]).count
        Stage.serverClose = 2
    ∧ ¬ ((runSignals ⟨false, false, false⟩ [Signal.SIGINT, Signal.SIGTERM]).count
        Stage.serverClose = 1) := by
  decide

/-- C4 amended: `gracefulShutdown` carries no in-progress guard, so the
trigger is not idempotent: every delivered termination signal initiates the
full shutdown sequence again, giving one `server.close` initiation per
signal rather than exactly one overall. -/
theorem shutdown_trigger_runs_per_signal (env : ShutdownEnv) (signals : List Signal) :
    (runSignals env signals).count Stage.serverClose = signals.length := by
  unfold runSignals
  rw [runSignals_go]
  simp

/-- C9 counterexample: a disconnect at t = 0 followed by a reconnect of the
same identity at t = 50, within the 100 ms delay, produces two presence
rebroadcasts (one at t = 50 from the connection handler, one at t = 100
from the never-cancelled close timer), not at most one. -/
theorem presence_coalescing_cex :
    (presenceBroadcastTimes churnScenario).length = 2
    ∧ ¬ ((presenceBroadcastTimes churnScenario).length ≤ 1) := by
  decide

/-- C9 amended: the close handler's presence rebroadcast is delayed by the
fixed 100 ms but never cancelled, so a disconnect at `t0` followed by a
reconnect at `t1` within the delay produces exactly two presence
rebroadcasts — at `t1` and at `t0 + 100` — and both fire while the identity
is present again, so each reflects the final state and the intermediate
absent state is never broadcast. -/
theorem presence_rebroadcasts_final_state (t0 t1 : Nat)
    (h01 : t0 ≤ t1) (h1d : t1 < t0 + presenceDelay) :
    presenceBroadcastTimes [ChurnEvent.disconnect t0, ChurnEvent.reconnect t1] =
      [t0 + presenceDelay, t1]
    ∧ ∀ t ∈ presenceBroadcastTimes [ChurnEvent.disconnect t0, ChurnEvent.reconnect t1],
        presentAt [ChurnEvent.disconnect t0, ChurnEvent.reconnect t1] t = true := by
  constructor
  · rfl
  · intro t ht
    have hpres : ∀ u, t1 ≤ u →
        presentAt [ChurnEvent.disconnect t0, ChurnEvent.reconnect t1] u = true := by
      intro u hu
      show (if t1 ≤ u then true else if t0 ≤ u then false else true) = true
      rw [if_pos hu]
    have hform : presenceBroadcastTimes
        [ChurnEvent.disconnect t0, ChurnEvent.reconnect t1] = [t0 + presenceDelay, t1] := rfl
    rw [hform] at ht
    simp only [List.mem_cons, List.not_mem_nil, or_false] at ht
    rcases ht with rfl | rfl
    · exact hpres _ (by omega)
    · exact hpres _ (le_refl _)

/-- C9 amended witness: the concrete churn scenario at t0 = 0, t1 = 50. -/
theorem presence_rebroadcasts_final_state_witness :
    presenceBroadcastTimes [ChurnEvent.disconnect 0, ChurnEvent.reconnect 50] =
      [0 + presenceDelay, 50] :=
  (presence_rebroadcasts_final_state 0 50 (by decide) (by decide)).1

end WsChat
